import Mathlib

/-!
Verification development for the CSP (cash-secured put) screener
(`src/screener.cpp`).  The numeric core of the program — the normal-CDF
approximation, the Black-Scholes put Greeks, the fundamental quality
scorer, the per-contract filter/score pipeline, the CLI argument
folding and the final ranking step — is embedded shallowly below.
C++ `double` values are modelled as real numbers; `int` values as `ℤ`.
The handful of places where IEEE-754 non-finite values matter are
modelled separately by the small `FVal` type, which mirrors the
comparison semantics the C++ filter relies on.
-/

namespace CspScreener

/-- Model of the IEEE-754 double values relevant to the filter pipeline:
a finite value (carried as a rational), the two infinities, and NaN.
Used to embed the comparison semantics of `src/screener.cpp:614-615`
(the delta-band check) for non-finite inputs. -/
inductive FVal where
  | fin (q : ℚ)
  | pinf
  | ninf
  | nan
  deriving DecidableEq

/-- IEEE `<` on doubles: every comparison involving NaN is false;
`-∞ < x < +∞` for finite `x`. -/
def fpLt : FVal → FVal → Bool
  | .nan, _ => false
  | _, .nan => false
  | .fin a, .fin b => decide (a < b)
  | .fin _, .pinf => true
  | .pinf, _ => false
  | .ninf, .ninf => false
  | .ninf, _ => true
  | .fin _, .ninf => false

/-- `std::abs` on doubles: `|±∞| = +∞`, `|NaN| = NaN`. -/
def fpAbs : FVal → FVal
  | .fin q => .fin |q|
  | .pinf => .pinf
  | .ninf => .pinf
  | .nan => .nan

/-- `std::min(a, b)` on doubles: returns `b` if `b < a`, else `a`
(so a NaN first argument is returned unchanged). -/
def fpMin (a b : FVal) : FVal := if fpLt b a then b else a

/-- The delta-band rejection test of `src/screener.cpp:614-615`
(`abs_delta < args.min_delta || abs_delta > args.max_delta`), under IEEE
comparison semantics, for a delta that may be non-finite. -/
def deltaBandRejects (minDelta maxDelta : ℚ) (delta : FVal) : Bool :=
  fpLt (fpAbs delta) (.fin minDelta) || fpLt (.fin maxDelta) (fpAbs delta)

noncomputable section

/-- `PI` constant from `src/screener.cpp:59`. -/
def PI : ℝ := 3.14159265358979323846

/-- `RISK_FREE_RATE` constant from `src/screener.cpp:58`. -/
def RISK_FREE_RATE : ℝ := 0.045

/-- `norm_pdf` from `src/screener.cpp:68-70`. -/
def norm_pdf (x : ℝ) : ℝ :=
  Real.exp (-0.5 * x * x) / Real.sqrt (2 * PI)

/-- Abramowitz-Stegun coefficient `a1` (`src/screener.cpp:78`). -/
def a1 : ℝ := 0.254829592
/-- Abramowitz-Stegun coefficient `a2` (`src/screener.cpp:79`). -/
def a2 : ℝ := -0.284496736
/-- Abramowitz-Stegun coefficient `a3` (`src/screener.cpp:80`). -/
def a3 : ℝ := 1.421413741
/-- Abramowitz-Stegun coefficient `a4` (`src/screener.cpp:81`). -/
def a4 : ℝ := -1.453152027
/-- Abramowitz-Stegun coefficient `a5` (`src/screener.cpp:82`). -/
def a5 : ℝ := 1.061405429
/-- Abramowitz-Stegun coefficient `p` (`src/screener.cpp:83`). -/
def p : ℝ := 0.3275911

/-- The inner computation of `norm_cdf` (`src/screener.cpp:88-89`) on the
already-transformed argument `u = |x|/√2`:
`t = 1/(1+p·u)` and `y = 1 - (((((a5·t+a4)·t)+a3)·t+a2)·t+a1)·t·exp(-u·u)`. -/
def cdf_y (u : ℝ) : ℝ :=
  let t := 1 / (1 + p * u)
  1 - (((((a5 * t + a4) * t) + a3) * t + a2) * t + a1) * t * Real.exp (-u * u)

/-- `norm_cdf` from `src/screener.cpp:76-92`: sign split, transform
`x ↦ |x|/√2`, and combine as `0.5·(1 + sign·y)`. -/
def norm_cdf (x : ℝ) : ℝ :=
  let sign : ℝ := if x < 0 then -1 else 1
  0.5 * (1 + sign * cdf_y (|x| / Real.sqrt 2))

/-- `Greeks` struct from `src/screener.cpp:98-104`. -/
structure Greeks where
  delta : ℝ
  gamma : ℝ
  theta : ℝ
  vega : ℝ
  rho : ℝ

/-- The all-zero Greeks vector (the default-initialized `Greeks g;`). -/
def zeroGreeks : Greeks := ⟨0, 0, 0, 0, 0⟩

/-- `bs_d1_d2` from `src/screener.cpp:109-117`. -/
def bs_d1_d2 (S K T r sigma : ℝ) : ℝ × ℝ :=
  if T ≤ 0 ∨ sigma ≤ 0 then (0, 0)
  else
    let sqrt_T := Real.sqrt T
    let d1 := (Real.log (S / K) + (r + 0.5 * sigma * sigma) * T) / (sigma * sqrt_T)
    (d1, d1 - sigma * sqrt_T)

/-- `bs_put_greeks` from `src/screener.cpp:122-156`. -/
def bs_put_greeks (S K T r sigma : ℝ) : Greeks :=
  if T ≤ 0 ∨ sigma ≤ 0 then zeroGreeks
  else
    let d12 := bs_d1_d2 S K T r sigma
    let d1 := d12.1
    let d2 := d12.2
    let sqrt_T := Real.sqrt T
    let n_d1 := norm_pdf d1
    let N_neg_d1 := norm_cdf (-d1)
    let N_neg_d2 := norm_cdf (-d2)
    let denom := S * sigma * sqrt_T
    let gamma := if denom > 0 then n_d1 / denom else 0
    let theta_annual := -(S * n_d1 * sigma) / (2 * sqrt_T)
                         + r * K * Real.exp (-r * T) * N_neg_d2
    let theta_per_day := theta_annual / 365
    ⟨-N_neg_d1,
     gamma,
     theta_per_day * 100,
     S * n_d1 * sqrt_T / 100,
     -K * T * Real.exp (-r * T) * N_neg_d2 / 100⟩

/-- `StockQuote` struct from `src/screener.cpp:351-363`. -/
structure StockQuote where
  symbol : String
  price : ℝ
  market_cap : ℝ
  pe_ratio : ℝ
  gross_margin : ℝ
  operating_margin : ℝ
  profit_margin : ℝ
  fcf_yield : ℝ
  revenue_growth : ℝ
  sector : String
  valid : Bool

/-- Gross-margin tier of `compute_quality_score` (`src/screener.cpp:533-535`). -/
def gm_adj (gm : ℝ) : ℤ :=
  if gm ≥ 60 then 12 else if gm ≥ 40 then 6
  else if gm < 20 ∧ gm > 0 then -8 else 0

/-- Operating-margin tier of `compute_quality_score` (`src/screener.cpp:538-540`). -/
def om_adj (om : ℝ) : ℤ :=
  if om ≥ 25 then 10 else if om ≥ 15 then 5
  else if om < 0 then -10 else 0

/-- FCF-yield tier of `compute_quality_score` (`src/screener.cpp:543-545`). -/
def fcf_adj (fy : ℝ) : ℤ :=
  if fy ≥ 5 then 10 else if fy ≥ 2 then 5
  else if fy < 0 then -8 else 0

/-- Revenue-growth tier of `compute_quality_score` (`src/screener.cpp:548-550`). -/
def rg_adj (rg : ℝ) : ℤ :=
  if rg ≥ 20 then 10 else if rg ≥ 10 then 5
  else if rg < 0 then -8 else 0

/-- P/E tier of `compute_quality_score` (`src/screener.cpp:553-555`). -/
def pe_adj (pe : ℝ) : ℤ :=
  if pe > 0 ∧ pe ≤ 25 then 8 else if pe > 25 ∧ pe ≤ 50 then 2
  else if pe > 100 ∨ pe < 0 then -5 else 0

/-- `compute_quality_score` from `src/screener.cpp:529-558`: neutral 50,
the five additive tier adjustments, clamped to `[0, 100]` at the end. -/
def compute_quality_score (q : StockQuote) : ℤ :=
  max 0 (min 100 (50 + gm_adj q.gross_margin + om_adj q.operating_margin
    + fcf_adj q.fcf_yield + rg_adj q.revenue_growth + pe_adj q.pe_ratio))

/-- `OptionContract` struct from `src/screener.cpp:365-374`. -/
structure OptionContract where
  strike : ℝ
  bid : ℝ
  ask : ℝ
  last : ℝ
  implied_vol : ℝ
  volume : ℤ
  open_interest : ℤ
  expiration : String

/-- `ScreeningArgs` struct from `src/screener.cpp:508-527`, with the
C++ member initializers captured by `default_args` below. -/
structure ScreeningArgs where
  tickers : List String
  ai_stocks : Bool
  income_mode : Bool
  spreads : Bool
  fundamentals : Bool
  verbose : Bool
  min_ivr : ℝ
  min_return : ℝ
  min_delta : ℝ
  max_delta : ℝ
  min_dte : ℤ
  max_dte : ℤ
  top : ℤ
  min_margin : ℝ
  min_fcf_yield : ℝ
  min_revenue_growth : ℝ

/-- The member initializers of `ScreeningArgs` (`src/screener.cpp:508-527`):
`min_ivr=0, min_return=0.5, min_delta=0.15, max_delta=0.35, min_dte=20,
max_dte=50, top=25`, fundamental floors at the `-999` sentinel. -/
def default_args : ScreeningArgs :=
  ⟨[], false, false, false, false, false,
   0, 0.5, 0.15, 0.35, 20, 50, 25, -999, -999, -999⟩

/-- `ScreeningResult` struct from `src/screener.cpp:485-506`. -/
structure ScreeningResult where
  ticker : String
  price : ℝ
  strike : ℝ
  expiration : String
  dte : ℤ
  bid : ℝ
  ask : ℝ
  mid : ℝ
  greeks : Greeks
  iv : ℝ
  iv_rank : ℝ
  otm_pct : ℝ
  monthly_return : ℝ
  capital : ℝ
  premium : ℝ
  volume : ℤ
  oi : ℤ
  quality_score : ℤ
  earnings_risk : Bool
  score : ℝ

/-- The expiration-level DTE pre-filter of `screen_ticker`
(`src/screener.cpp:591`): an expiration is processed only when
`¬(dte < args.min_dte ∨ dte > args.max_dte)`. -/
def dte_eligible (args : ScreeningArgs) (dte : ℤ) : Prop :=
  ¬(dte < args.min_dte ∨ dte > args.max_dte)

/-- The per-contract body of `screen_ticker`'s puts loop
(`src/screener.cpp:598-658`), for one underlying quote price, its
precomputed quality score, and one expiration (`T = dte/365` as at
`src/screener.cpp:593`).  Returns `none` when the contract is rejected
by a filter stage (`continue` in the C++), `some result` when it
survives and is pushed onto the result list. -/
def process_put (symbol : String) (price : ℝ) (quality_score : ℤ)
    (exp : String) (dte : ℤ) (args : ScreeningArgs)
    (put : OptionContract) : Option ScreeningResult :=
  if put.strike ≥ price then none
  else if put.bid ≤ 0 then none
  else
    let mid := (put.bid + put.ask) / 2
    let spread := put.ask - put.bid
    if mid > 0 ∧ spread / mid > 0.15 then none
    else
      let sigma := if put.implied_vol > 0 then put.implied_vol else 0.3
      let T := (dte : ℝ) / 365
      let greeks := bs_put_greeks price put.strike T RISK_FREE_RATE sigma
      let abs_delta := |greeks.delta|
      if abs_delta < args.min_delta ∨ abs_delta > args.max_delta then none
      else
        let capital_required := put.strike * 100
        let premium_total := mid * 100
        let monthly_return :=
          if dte > 0 then (mid / put.strike) * (30 / (dte : ℝ)) * 100 else 0
        if monthly_return < args.min_return then none
        else
          let otm_pct := ((price - put.strike) / price) * 100
          let theta_score := min (|greeks.theta| / 10) 5
          let gamma_penalty := min (greeks.gamma * 10000) 5
          let qual_contribution := ((quality_score : ℝ) / 100) * 10
          let score := monthly_return * 0.40
                       + 0.5 * 15
                       + otm_pct * 0.25
                       + theta_score * 1.5
                       + qual_contribution * 0.8
                       - gamma_penalty * 0.5
          some ⟨symbol, price, put.strike, exp, dte, put.bid, put.ask, mid,
                greeks, put.implied_vol * 100, -1, otm_pct, monthly_return,
                capital_required, premium_total, put.volume,
                put.open_interest, quality_score, false, score⟩

/-- Sortedness produced by `std::sort(..., [](a, b){ return a.score > b.score; })`
(`src/screener.cpp:697-698`): each element's score is ≥ the next one's. -/
def ScoreSortedDesc (l : List ScreeningResult) : Prop :=
  l.Sorted (fun r1 r2 => r2.score ≤ r1.score)

/-- `static_cast<size_t>` of an `int` (`src/screener.cpp:701`): reduction
modulo `2^64`. -/
def size_t_cast (i : ℤ) : ℕ := (i % (2 : ℤ) ^ 64).toNat

/-- Relational embedding of `print_results` (`src/screener.cpp:689-746`)
viewed as the Ranker: on empty input it returns no rows
(`src/screener.cpp:690-694`); otherwise `std::sort` rearranges the
accumulated candidates into some permutation that is sorted by score
descending (the C++ standard leaves the order of tied elements
unspecified, so the sort is modelled as a relation), and the printed
output is the first `min(static_cast<size_t>(args.top), size)` rows. -/
def ranker_run (args : ScreeningArgs)
    (input output : List ScreeningResult) : Prop :=
  if input.isEmpty then output = []
  else ∃ s : List ScreeningResult, s.Perm input ∧ ScoreSortedDesc s ∧
    output = s.take (min (size_t_cast args.top) input.length)

/-- The command-line options recognized by `parse_args`
(`src/screener.cpp:818-883`), abstracted over the token lexing: each
constructor stands for one recognized flag together with its already
converted payload (`std::stod`/`std::stoi` and the ticker grouping are
the lexer's job, elided here). The help flag exits the process before
screening and is not a configuration, so it has no constructor. -/
inductive CliOpt where
  | aiStocks
  | income
  | optSpreads
  | showFundamentals
  | beVerbose
  | tickerList (ts : List String)
  | minReturn (v : ℝ)
  | minDelta (v : ℝ)
  | maxDelta (v : ℝ)
  | minDte (v : ℤ)
  | maxDte (v : ℤ)
  | topN (v : ℤ)
  | minMargin (v : ℝ)
  | minFcfYield (v : ℝ)
  | minRevenueGrowth (v : ℝ)

/-- One iteration of the `parse_args` option loop
(`src/screener.cpp:821-875`): the recognized option overwrites (or, for
tickers, appends to) the corresponding field. -/
def apply_opt (args : ScreeningArgs) : CliOpt → ScreeningArgs
  | .aiStocks => { args with ai_stocks := true }
  | .income => { args with income_mode := true }
  | .optSpreads => { args with spreads := true }
  | .showFundamentals => { args with fundamentals := true }
  | .beVerbose => { args with verbose := true }
  | .tickerList ts => { args with tickers := args.tickers ++ ts }
  | .minReturn v => { args with min_return := v }
  | .minDelta v => { args with min_delta := v }
  | .maxDelta v => { args with max_delta := v }
  | .minDte v => { args with min_dte := v }
  | .maxDte v => { args with max_dte := v }
  | .topN v => { args with top := v }
  | .minMargin v => { args with min_margin := v }
  | .minFcfYield v => { args with min_fcf_yield := v }
  | .minRevenueGrowth v => { args with min_revenue_growth := v }

/-- `parse_args` from `src/screener.cpp:818-883`: fold the options over
the default-initialized `ScreeningArgs`, then apply the income-mode
delta adjustment (`src/screener.cpp:878-880`).  The function is total:
no configuration is ever rejected. -/
def parse_args (opts : List CliOpt) : ScreeningArgs :=
  let args := opts.foldl apply_opt default_args
  if args.income_mode ∧ args.min_delta = 0.15 ∧ args.max_delta = 0.35 then
    { args with max_delta := 0.25 }
  else args

/-- Ticker label for sample candidates. -/
def symA : String := "A"
/-- Ticker label for sample candidates. -/
def symB : String := "B"
/-- Ticker label for the scenario underlying. -/
def symW : String := "W"
/-- Expiration label for sample contracts. -/
def sampleExp : String := "2099-01-01"

/-- A minimal accumulated candidate with the given ticker and composite
score, every other field neutral; used as input to the Ranker. -/
def sampleResult (tick : String) (sc : ℝ) : ScreeningResult :=
  ⟨tick, 0, 0, sampleExp, 0, 0, 0, 0, zeroGreeks, 0, -1, 0, 0, 0,
   0, 0, 0, 50, false, sc⟩

/-- First-discovered sample candidate (score 1). -/
def rAlpha : ScreeningResult := sampleResult symA 1
/-- Second-discovered sample candidate (same score 1). -/
def rBeta : ScreeningResult := sampleResult symB 1

/-- The end-to-end scenario put contract of the spec: strike 110,
bid 2.40, ask 2.60, implied volatility 0.35. -/
def scenario_put : OptionContract := ⟨110, 2.40, 2.60, 0, 0.35, 0, 0, sampleExp⟩

/-- A wide-open configuration (delta band `[0, 10]`, no return floor)
used to exhibit a surviving candidate without tight numeric bounds. -/
def wide_args : ScreeningArgs :=
  ⟨[], false, false, false, false, false, 0, 0, 0, 10, 0, 100, 25,
   -999, -999, -999⟩

/-- A liquid zero-spread contract used to exercise the surviving path
under `wide_args`. -/
def plain_put : OptionContract := ⟨50, 1, 1, 0, 0.5, 0, 0, sampleExp⟩

/-- An option list whose minimum delta exceeds its maximum delta. -/
def bad_opts : List CliOpt := [CliOpt.minDelta 0.5, CliOpt.maxDelta 0.2]

end

/-! ## Theorems -/

section Claims

/-- C2: for every input `(S, K, r, sigma)` with `T ≤ 0` or `sigma ≤ 0`,
the put-Greeks pricer returns the all-zero Greeks vector
(`delta = gamma = theta = vega = rho = 0`); the function is total, so no
error is raised. -/
theorem C2_degenerate_zero_greeks (S K T r sigma : ℝ)
    (h : T ≤ 0 ∨ sigma ≤ 0) :
    bs_put_greeks S K T r sigma = zeroGreeks := by
  unfold bs_put_greeks
  rw [if_pos h]

/-- Witness for C2 at the concrete degenerate input `T = 0`. -/
theorem C2_degenerate_zero_greeks_witness :
    ((0 : ℝ) ≤ 0 ∨ (0.2 : ℝ) ≤ 0) ∧
    bs_put_greeks 100 90 0 0.045 0.2 = zeroGreeks :=
  ⟨Or.inl le_rfl, C2_degenerate_zero_greeks 100 90 0 0.045 0.2 (Or.inl le_rfl)⟩

/-- C7: a metric whose value is exactly zero (the missing-data sentinel)
triggers no adjustment tier at all in the quality score — in particular
no penalty tier: gross margin 0 does not incur the `-8` penalty, and the
operating-margin, FCF-yield, revenue-growth and P/E tiers are likewise
not triggered at exactly 0. -/
theorem C7_zero_sentinel_no_penalty :
    gm_adj 0 = 0 ∧ om_adj 0 = 0 ∧ fcf_adj 0 = 0 ∧
    rg_adj 0 = 0 ∧ pe_adj 0 = 0 := by
  norm_num [gm_adj, om_adj, fcf_adj, rg_adj, pe_adj]

/-- C10: a fundamentals record whose gross margin, operating margin, FCF
yield, revenue growth and P/E ratio are all exactly zero scores exactly
the neutral 50. -/
theorem C10_all_zero_fundamentals_neutral :
    compute_quality_score
      ⟨symW, 100, 0, 0, 0, 0, 0, 0, 0, symW, true⟩ = 50 := by
  norm_num [compute_quality_score, gm_adj, om_adj, fcf_adj, rg_adj, pe_adj]

/-- C9 counterexample: a candidate whose computed delta is NaN is NOT
rejected by the delta-band filter under the default thresholds — both
IEEE comparisons `|NaN| < 0.15` and `|NaN| > 0.35` are false, so the
`continue` at `src/screener.cpp:615` never fires and the candidate
survives, contradicting the claim that every non-finite Greeks vector is
rejected. -/
theorem C9_nan_delta_not_rejected :
    deltaBandRejects 0.15 0.35 FVal.nan = false := by decide

/-- C9 amended: a candidate with infinite delta IS rejected by the band
check (`|±∞| > 0.35` holds), but a NaN delta passes both comparisons and
is not rejected, and a NaN theta propagates through `std::min` into the
composite score — so a NaN score can reach the final sort. -/
theorem C9_nonfinite_band_behavior :
    deltaBandRejects 0.15 0.35 FVal.pinf = true ∧
    deltaBandRejects 0.15 0.35 FVal.ninf = true ∧
    deltaBandRejects 0.15 0.35 FVal.nan = false ∧
    fpMin FVal.nan (FVal.fin 5) = FVal.nan := by decide

/-- C8 counterexample: `parse_args` accepts a configuration with
`minDelta = 0.5 > 0.2 = maxDelta` and returns it unchanged — it is a
total function with no validation step, so no configuration is ever
rejected before screening begins. -/
theorem C8_bad_band_accepted :
    (parse_args bad_opts).max_delta < (parse_args bad_opts).min_delta ∧
    parse_args bad_opts =
      ⟨[], false, false, false, false, false,
       0, 0.5, 0.5, 0.2, 20, 50, 25, -999, -999, -999⟩ := by
  norm_num [parse_args, bad_opts, apply_opt, default_args, List.foldl]

/-- C8 amended: a configuration with `minDelta > maxDelta` is not
rejected at configuration-validation time (no such validation exists);
instead the empty delta band makes the per-candidate filter reject every
contract, so screening proceeds and returns nothing. -/
theorem C8_empty_band_rejects_all (args : ScreeningArgs) (symbol : String)
    (price : ℝ) (quality_score : ℤ) (exp : String) (dte : ℤ)
    (put : OptionContract) (h : args.max_delta < args.min_delta) :
    process_put symbol price quality_score exp dte args put = none := by
  have hband : ∀ d : ℝ, d < args.min_delta ∨ d > args.max_delta := by
    intro d
    rcases lt_or_le d args.min_delta with h1 | h1
    · exact Or.inl h1
    · exact Or.inr (lt_of_lt_of_le h h1)
  simp only [process_put]
  split
  · rfl
  split
  · rfl
  split
  · rfl
  rw [if_pos (hband _)]

/-- Witness for C8's amended theorem: the non-validated configuration
parsed from `bad_opts` filters out the concrete `plain_put` contract. -/
theorem C8_empty_band_rejects_all_witness :
    (parse_args bad_opts).max_delta < (parse_args bad_opts).min_delta ∧
    process_put symW 100 50 sampleExp 30 (parse_args bad_opts)
      plain_put = none := by
  have h : (parse_args bad_opts).max_delta < (parse_args bad_opts).min_delta := by
    norm_num [parse_args, bad_opts, apply_opt, default_args, List.foldl]
  exact ⟨h, C8_empty_band_rejects_all (parse_args bad_opts) symW 100 50
    sampleExp 30 plain_put h⟩

/-- Helper: `[rBeta, rAlpha]` is a legitimate result of the Ranker on the
discovery-ordered input `[rAlpha, rBeta]`: the two candidates share the
same composite score, so the reversed list is a permutation sorted by
score descending, and `std::sort` is permitted to produce it. -/
theorem ranker_can_swap_ties :
    ranker_run default_args [rAlpha, rBeta] [rBeta, rAlpha] := by
  simp only [ranker_run, List.isEmpty_cons, if_false, Bool.false_eq_true]
  refine ⟨[rBeta, rAlpha], List.Perm.swap rAlpha rBeta [], ?_, ?_⟩
  · simp [ScoreSortedDesc, rAlpha, rBeta, sampleResult]
  · norm_num [size_t_cast, default_args]

/-- C1 counterexample: the Ranker does not stable-sort.  `print_results`
uses `std::sort` (`src/screener.cpp:697`), whose order on tied elements
is unspecified, so on the input `[rAlpha, rBeta]` — two candidates with
equal score, `rAlpha` discovered first — the reversed output
`[rBeta, rAlpha]` is a permitted run of the code, violating "relative
discovery order is preserved for equal scores". -/
theorem C1_not_stable :
    ¬ ∀ out : List ScreeningResult,
        ranker_run default_args [rAlpha, rBeta] out → out = [rAlpha, rBeta] := by
  intro hall
  have h2 := hall [rBeta, rAlpha] ranker_can_swap_ties
  have hhead : rBeta = rAlpha := by
    have := congrArg List.head? h2
    simpa using this
  have htick := congrArg ScreeningResult.ticker hhead
  simp only [rAlpha, rBeta, sampleResult] at htick
  exact absurd htick (by decide)

/-- C1 amended: the Ranker, given any accumulated candidate list, sorts
it by composite score descending (NOT stably: `std::sort` leaves the
relative order of equal scores unspecified) and the output has length
`min(topN, total)`; empty input yields an empty result rather than an
error. -/
theorem C1_sorted_truncated (args : ScreeningArgs)
    (input output : List ScreeningResult)
    (htop0 : 0 ≤ args.top) (htop1 : args.top < 2 ^ 64)
    (hrun : ranker_run args input output) :
    ScoreSortedDesc output ∧
    output.length = min args.top.toNat input.length ∧
    (input = [] → output = []) := by
  unfold ranker_run at hrun
  by_cases he : input = []
  · subst he
    simp only [List.isEmpty_nil, if_true] at hrun
    subst hrun
    refine ⟨List.sorted_nil, ?_, fun _ => rfl⟩
    simp
  · rw [if_neg (by simpa [List.isEmpty_iff] using he)] at hrun
    obtain ⟨s, hperm, hsort, hout⟩ := hrun
    have hcast : size_t_cast args.top = args.top.toNat := by
      unfold size_t_cast
      rw [Int.emod_eq_of_lt htop0 htop1]
    refine ⟨?_, ?_, fun hcon => absurd hcon he⟩
    · rw [hout]
      exact List.Pairwise.sublist (List.take_sublist _ _) hsort
    · rw [hout, List.length_take, hperm.length_eq, hcast]
      omega

/-- Witness for C1's amended theorem: the singleton run under the default
configuration. -/
theorem C1_sorted_truncated_witness :
    (0 ≤ default_args.top ∧ default_args.top < 2 ^ 64 ∧
      ranker_run default_args [rAlpha] [rAlpha]) ∧
    (ScoreSortedDesc [rAlpha] ∧
      ([rAlpha] : List ScreeningResult).length =
        min default_args.top.toNat ([rAlpha] : List ScreeningResult).length ∧
      (([rAlpha] : List ScreeningResult) = [] → [rAlpha] = ([] : List ScreeningResult))) := by
  have h0 : (0 : ℤ) ≤ default_args.top := by norm_num [default_args]
  have h1 : default_args.top < 2 ^ 64 := by norm_num [default_args]
  have hrun : ranker_run default_args [rAlpha] [rAlpha] := by
    simp only [ranker_run, List.isEmpty_cons, if_false, Bool.false_eq_true]
    refine ⟨[rAlpha], List.Perm.refl _, by simp [ScoreSortedDesc], ?_⟩
    norm_num [size_t_cast, default_args]
  exact ⟨⟨h0, h1, hrun⟩, C1_sorted_truncated default_args [rAlpha] [rAlpha] h0 h1 hrun⟩

/-- The Abramowitz-Stegun quartic `a5·t⁴+a4·t³+a3·t²+a2·t+a1` is
nonnegative for every real `t` (it admits an exact sum-of-squares
decomposition). -/
theorem as_quartic_nonneg (t : ℝ) :
    0 ≤ a5 * t ^ 4 + a4 * t ^ 3 + a3 * t ^ 2 + a2 * t + a1 := by
  unfold a1 a2 a3 a4 a5
  nlinarith [sq_nonneg (t ^ 2 - t), sq_nonneg (t - 1), sq_nonneg (t ^ 2),
    sq_nonneg t]

/-- The Horner-form polynomial inside `norm_cdf` is nonnegative for
`t ≥ 0`. -/
theorem as_poly_nonneg (t : ℝ) (h0 : 0 ≤ t) :
    0 ≤ (((((a5 * t + a4) * t) + a3) * t + a2) * t + a1) * t := by
  nlinarith [mul_nonneg h0 (as_quartic_nonneg t)]

/-- The Horner-form polynomial inside `norm_cdf` is at most 2 for
`t ∈ [0, 1]`. -/
theorem as_poly_le_two (t : ℝ) (h0 : 0 ≤ t) (h1 : t ≤ 1) :
    (((((a5 * t + a4) * t) + a3) * t + a2) * t + a1) * t ≤ 2 := by
  unfold a1 a2 a3 a4 a5
  have h2 : t ^ 2 ≤ 1 := by nlinarith
  have h3 : t ^ 3 ≤ 1 := by nlinarith
  have h4 : 0 ≤ t ^ 4 := by positivity
  have h5 : 0 ≤ t ^ 4 * (1 - t) := by
    have h6 : 0 ≤ 1 - t := by linarith
    exact mul_nonneg h4 h6
  nlinarith [h2, h3, h4, h5]

/-- Bounds for the combination `1 - P(t)·E` appearing in `norm_cdf`,
for a polynomial value `P(t) ∈ [0, 2]` scaled by `E ∈ (0, 1]`. -/
theorem y_expr_bounds (t E : ℝ) (ht0 : 0 ≤ t) (ht1 : t ≤ 1)
    (hE0 : 0 < E) (hE1 : E ≤ 1) :
    -1 ≤ 1 - (((((a5 * t + a4) * t) + a3) * t + a2) * t + a1) * t * E ∧
    1 - (((((a5 * t + a4) * t) + a3) * t + a2) * t + a1) * t * E ≤ 1 := by
  have hP0 := as_poly_nonneg t ht0
  have hP2 := as_poly_le_two t ht0 ht1
  constructor
  · nlinarith [mul_le_mul_of_nonneg_left hE1 hP0]
  · nlinarith [mul_nonneg hP0 hE0.le]

/-- The inner `y` value of `norm_cdf` lies in `[-1, 1]` for every
transformed argument `u ≥ 0`. -/
theorem cdf_y_bounds (u : ℝ) (hu : 0 ≤ u) :
    -1 ≤ cdf_y u ∧ cdf_y u ≤ 1 := by
  have hpu : 0 ≤ p * u := mul_nonneg (by norm_num [p]) hu
  have hden : 0 < 1 + p * u := by linarith
  have ht0 : 0 ≤ 1 / (1 + p * u) := by positivity
  have ht1 : 1 / (1 + p * u) ≤ 1 := by
    rw [div_le_one hden]; linarith
  have hE0 : 0 < Real.exp (-u * u) := Real.exp_pos _
  have hE1 : Real.exp (-u * u) ≤ 1 := by
    calc Real.exp (-u * u) ≤ Real.exp 0 := Real.exp_le_exp.mpr (by nlinarith)
    _ = 1 := Real.exp_zero
  have h := y_expr_bounds (1 / (1 + p * u)) (Real.exp (-u * u)) ht0 ht1 hE0 hE1
  simpa only [cdf_y] using h

/-- The Abramowitz-Stegun CDF approximation always lies in `[0, 1]`. -/
theorem norm_cdf_mem (x : ℝ) : 0 ≤ norm_cdf x ∧ norm_cdf x ≤ 1 := by
  have hu : 0 ≤ |x| / Real.sqrt 2 := by positivity
  have hy := cdf_y_bounds (|x| / Real.sqrt 2) hu
  simp only [norm_cdf]
  by_cases hx : x < 0
  · rw [if_pos hx]
    constructor <;> nlinarith [hy.1, hy.2]
  · rw [if_neg hx]
    constructor <;> nlinarith [hy.1, hy.2]

/-- `norm_cdf` on a negative argument, written without the sign split. -/
theorem norm_cdf_of_neg (x : ℝ) (hx : x < 0) :
    norm_cdf x = 0.5 * (1 - cdf_y (|x| / Real.sqrt 2)) := by
  simp only [norm_cdf, if_pos hx]
  ring

/-- `norm_cdf` on a nonnegative argument, written without the sign
split. -/
theorem norm_cdf_of_nonneg (x : ℝ) (hx : 0 ≤ x) :
    norm_cdf x = 0.5 * (1 + cdf_y (|x| / Real.sqrt 2)) := by
  simp only [norm_cdf, if_neg (not_lt.mpr hx)]
  ring

/-- The exact value of the inner `y` at 0: the five coefficients sum to
`0.999999999`, so `y(0) = 10⁻⁹`. -/
theorem cdf_y_zero : cdf_y 0 = 1e-9 := by
  simp only [cdf_y]
  norm_num [a1, a2, a3, a4, a5, p, Real.exp_zero]

/-- C5: for every real `x`, `cdf(x) + cdf(-x) = 1` within absolute
tolerance `1e-6` (away from 0 the identity is exact; at 0 the defect is
exactly `10⁻⁹`), and `cdf(0) = 0.5` within the same tolerance. -/
theorem C5_cdf_reflection :
    (∀ x : ℝ, |norm_cdf x + norm_cdf (-x) - 1| ≤ 1e-6) ∧
    |norm_cdf 0 - 0.5| ≤ 1e-6 := by
  have hzero : norm_cdf 0 = 0.5 * (1 + cdf_y 0) := by
    rw [norm_cdf_of_nonneg 0 le_rfl]
    norm_num
  constructor
  · intro x
    rcases lt_trichotomy x 0 with hx | hx | hx
    · rw [norm_cdf_of_neg x hx, norm_cdf_of_nonneg (-x) (by linarith),
        abs_neg]
      ring_nf
      norm_num
    · subst hx
      rw [neg_zero, hzero, cdf_y_zero]
      rw [show |(0.5 : ℝ) * (1 + 1e-9) + 0.5 * (1 + 1e-9) - 1| = 1e-9 by
        rw [abs_of_nonneg] <;> norm_num]
      norm_num
    · rw [norm_cdf_of_nonneg x hx.le, norm_cdf_of_neg (-x) (by linarith),
        abs_neg]
      ring_nf
      norm_num
  · rw [hzero, cdf_y_zero]
    rw [show |(0.5 : ℝ) * (1 + 1e-9) - 0.5| = 5e-10 by
      rw [abs_of_nonneg] <;> norm_num]
    norm_num

/-- The `norm_pdf` density is nonnegative everywhere. -/
theorem norm_pdf_nonneg (x : ℝ) : 0 ≤ norm_pdf x := by
  unfold norm_pdf
  positivity

/-- Shape of the put delta outside the degenerate guard. -/
theorem bs_put_greeks_delta (S K T r sigma : ℝ)
    (hguard : ¬(T ≤ 0 ∨ sigma ≤ 0)) :
    (bs_put_greeks S K T r sigma).delta =
      -norm_cdf (-(bs_d1_d2 S K T r sigma).1) := by
  unfold bs_put_greeks
  rw [if_neg hguard]

/-- Shape of the put gamma outside the degenerate guard. -/
theorem bs_put_greeks_gamma (S K T r sigma : ℝ)
    (hguard : ¬(T ≤ 0 ∨ sigma ≤ 0)) :
    (bs_put_greeks S K T r sigma).gamma =
      if S * sigma * Real.sqrt T > 0 then
        norm_pdf ((bs_d1_d2 S K T r sigma).1) / (S * sigma * Real.sqrt T)
      else 0 := by
  unfold bs_put_greeks
  rw [if_neg hguard]

/-- Shape of the put vega outside the degenerate guard. -/
theorem bs_put_greeks_vega (S K T r sigma : ℝ)
    (hguard : ¬(T ≤ 0 ∨ sigma ≤ 0)) :
    (bs_put_greeks S K T r sigma).vega =
      S * norm_pdf ((bs_d1_d2 S K T r sigma).1) * Real.sqrt T / 100 := by
  unfold bs_put_greeks
  rw [if_neg hguard]

/-- C4: for every input with `S > 0`, `K > 0`, `T > 0` and `sigma > 0`
(and any rate `r`), the put Greeks satisfy `delta ∈ [-1, 0]`,
`gamma ≥ 0` and `vega ≥ 0`. -/
theorem C4_put_greek_ranges (S K T r sigma : ℝ) (hS : 0 < S) (hK : 0 < K)
    (hT : 0 < T) (hsig : 0 < sigma) :
    -1 ≤ (bs_put_greeks S K T r sigma).delta ∧
    (bs_put_greeks S K T r sigma).delta ≤ 0 ∧
    0 ≤ (bs_put_greeks S K T r sigma).gamma ∧
    0 ≤ (bs_put_greeks S K T r sigma).vega := by
  have hguard : ¬(T ≤ 0 ∨ sigma ≤ 0) := by push_neg; exact ⟨hT, hsig⟩
  have hN := norm_cdf_mem (-(bs_d1_d2 S K T r sigma).1)
  refine ⟨?_, ?_, ?_, ?_⟩
  · rw [bs_put_greeks_delta S K T r sigma hguard]
    linarith [hN.2]
  · rw [bs_put_greeks_delta S K T r sigma hguard]
    linarith [hN.1]
  · rw [bs_put_greeks_gamma S K T r sigma hguard]
    split
    · next hpos => exact div_nonneg (norm_pdf_nonneg _) hpos.le
    · exact le_rfl
  · rw [bs_put_greeks_vega S K T r sigma hguard]
    have := norm_pdf_nonneg ((bs_d1_d2 S K T r sigma).1)
    have := Real.sqrt_nonneg T
    positivity

/-- Witness for C4 at the concrete input `S=K=T=sigma=1`, `r=0`. -/
theorem C4_put_greek_ranges_witness :
    ((0 : ℝ) < 1) ∧
    (-1 ≤ (bs_put_greeks 1 1 1 0 1).delta ∧
     (bs_put_greeks 1 1 1 0 1).delta ≤ 0 ∧
     0 ≤ (bs_put_greeks 1 1 1 0 1).gamma ∧
     0 ≤ (bs_put_greeks 1 1 1 0 1).vega) :=
  ⟨by norm_num,
   C4_put_greek_ranges 1 1 1 0 1 (by norm_num) (by norm_num) (by norm_num)
     (by norm_num)⟩

/-- The put delta always has absolute value at most 1 (it is either 0,
in the degenerate guard, or `-Φ(-d1)` with `Φ` valued in `[0, 1]`). -/
theorem bs_delta_abs_le_one (S K T r sigma : ℝ) :
    |(bs_put_greeks S K T r sigma).delta| ≤ 1 := by
  by_cases hguard : T ≤ 0 ∨ sigma ≤ 0
  · unfold bs_put_greeks
    rw [if_pos hguard]
    simp [zeroGreeks]
  · rw [bs_put_greeks_delta S K T r sigma hguard, abs_neg,
      abs_of_nonneg (norm_cdf_mem _).1]
    exact (norm_cdf_mem _).2

/-- C3: every surviving candidate's composite score equals exactly
`monthlyReturn*0.40 + 15*0.5 + otmPct*0.25 + min(|theta|/10, 5)*1.5 +
((qualityScore/100)*10)*0.8 - min(gamma*10000, 5)*0.5`, the IVR term
being the fixed constant contribution `15*0.5`. -/
theorem C3_composite_score_formula (symbol : String) (price : ℝ)
    (quality_score : ℤ) (exp : String) (dte : ℤ) (args : ScreeningArgs)
    (put : OptionContract) (r : ScreeningResult)
    (h : process_put symbol price quality_score exp dte args put = some r) :
    r.score = r.monthly_return * 0.40
      + 15 * 0.5
      + r.otm_pct * 0.25
      + min (|r.greeks.theta| / 10) 5 * 1.5
      + (((r.quality_score : ℝ) / 100) * 10) * 0.8
      - min (r.greeks.gamma * 10000) 5 * 0.5 := by
  simp only [process_put] at h
  generalize (if put.implied_vol > 0 then put.implied_vol else 0.3) = sigma at h
  generalize (if dte > 0 then (put.bid + put.ask) / 2 / put.strike *
    (30 / (dte : ℝ)) * 100 else 0) = mr at h
  split at h
  · exact absurd h (by simp)
  split at h
  · exact absurd h (by simp)
  split at h
  · exact absurd h (by simp)
  split at h
  · exact absurd h (by simp)
  split at h
  · exact absurd h (by simp)
  injection h with hX
  subst hX
  dsimp only
  ring

/-- Helper: under the wide-open configuration the concrete `plain_put`
contract survives every filter stage of the pipeline. -/
theorem process_put_wide_surviving :
    (process_put symW 100 50 sampleExp 30 wide_args plain_put).isSome = true := by
  norm_num [process_put, plain_put, wide_args]
  have h1 := bs_delta_abs_le_one 100 50 ((6 : ℝ) / 73) RISK_FREE_RATE (1 / 2)
  linarith

/-- Witness for C3: the surviving candidate produced from `plain_put`
under `wide_args` carries a score equal to the composite formula. -/
theorem C3_composite_score_formula_witness :
    ∃ res, process_put symW 100 50 sampleExp 30 wide_args plain_put = some res ∧
      res.score = res.monthly_return * 0.40
        + 15 * 0.5
        + res.otm_pct * 0.25
        + min (|res.greeks.theta| / 10) 5 * 1.5
        + (((res.quality_score : ℝ) / 100) * 10) * 0.8
        - min (res.greeks.gamma * 10000) 5 * 0.5 := by
  obtain ⟨res, hres⟩ := Option.isSome_iff_exists.mp process_put_wide_surviving
  exact ⟨res, hres,
    C3_composite_score_formula symW 100 50 sampleExp 30 wide_args plain_put
      res hres⟩

/-- `log(120/110)` is at least `1/12` (from `log x ≥ 1 - 1/x`). -/
theorem log_ratio_lower : (1 : ℝ) / 12 ≤ Real.log (120 / 110) := by
  have h1 : Real.log (((120 : ℝ) / 110)⁻¹) ≤ ((120 : ℝ) / 110)⁻¹ - 1 :=
    Real.log_le_sub_one_of_pos (by norm_num)
  rw [Real.log_inv] at h1
  have h2 : ((120 : ℝ) / 110)⁻¹ - 1 = -(1 / 12) := by norm_num
  linarith [h1.trans_eq h2]

/-- `log(120/110)` is at most `1/11` (from `log x ≤ x - 1`). -/
theorem log_ratio_upper : Real.log ((120 : ℝ) / 110) ≤ 1 / 11 := by
  have h1 : Real.log ((120 : ℝ) / 110) ≤ (120 : ℝ) / 110 - 1 :=
    Real.log_le_sub_one_of_pos (by norm_num)
  have h2 : (120 : ℝ) / 110 - 1 = 1 / 11 := by norm_num
  linarith [h1.trans_eq h2]

/-- Rational enclosure of `√(6/73)` (the scenario's `√T` for 30 DTE). -/
theorem sqrt_T_bounds :
    (0.2866 : ℝ) ≤ Real.sqrt (6 / 73) ∧ Real.sqrt ((6 : ℝ) / 73) ≤ 0.2867 := by
  constructor
  · rw [show (0.2866 : ℝ) = Real.sqrt (0.2866 ^ 2) from
      (Real.sqrt_sq (by norm_num)).symm]
    exact Real.sqrt_le_sqrt (by norm_num)
  · rw [show (0.2867 : ℝ) = Real.sqrt (0.2867 ^ 2) from
      (Real.sqrt_sq (by norm_num)).symm]
    exact Real.sqrt_le_sqrt (by norm_num)

/-- Rational enclosure of `√2`. -/
theorem sqrt_two_bounds :
    (1.414213 : ℝ) ≤ Real.sqrt 2 ∧ Real.sqrt 2 ≤ 1.414214 := by
  constructor
  · rw [show (1.414213 : ℝ) = Real.sqrt (1.414213 ^ 2) from
      (Real.sqrt_sq (by norm_num)).symm]
    exact Real.sqrt_le_sqrt (by norm_num)
  · rw [show (1.414214 : ℝ) = Real.sqrt (1.414214 ^ 2) from
      (Real.sqrt_sq (by norm_num)).symm]
    exact Real.sqrt_le_sqrt (by norm_num)

/-- Closed form of the scenario's `d1` (spot 120, strike 110, `T = 6/73`,
volatility 0.35). -/
theorem scenario_d1_eq :
    (bs_d1_d2 120 110 ((6 : ℝ) / 73) RISK_FREE_RATE (7 / 20)).1 =
      (Real.log (120 / 110) +
        (RISK_FREE_RATE + 0.5 * ((7 : ℝ) / 20) * (7 / 20)) * (6 / 73)) /
      ((7 / 20) * Real.sqrt (6 / 73)) := by
  unfold bs_d1_d2
  rw [if_neg (by norm_num)]

/-- Interval enclosure of the scenario's `d1`: `0.917 ≤ d1 ≤ 0.994`. -/
theorem scenario_d1_bounds :
    (0.917 : ℝ) ≤ (bs_d1_d2 120 110 ((6 : ℝ) / 73) RISK_FREE_RATE (7 / 20)).1 ∧
    (bs_d1_d2 120 110 ((6 : ℝ) / 73) RISK_FREE_RATE (7 / 20)).1 ≤ 0.994 := by
  rw [scenario_d1_eq]
  simp only [RISK_FREE_RATE]
  have hsT := sqrt_T_bounds
  have hpos : (0 : ℝ) < 7 / 20 * Real.sqrt (6 / 73) := by nlinarith [hsT.1]
  constructor
  · rw [le_div_iff hpos]
    nlinarith [log_ratio_lower, hsT.2]
  · rw [div_le_iff hpos]
    nlinarith [log_ratio_upper, hsT.1]

/-- Interval enclosure of the Horner polynomial in `norm_cdf` over the
`t`-range reached by the scenario: `t ∈ [0.8128, 0.8249]` gives
`P(t) ∈ [0.52, 0.56]`. -/
theorem as_poly_scenario (t : ℝ) (h1 : (0.8128 : ℝ) ≤ t)
    (h2 : t ≤ (0.8249 : ℝ)) :
    (0.52 : ℝ) ≤ (((((a5 * t + a4) * t) + a3) * t + a2) * t + a1) * t ∧
    (((((a5 * t + a4) * t) + a3) * t + a2) * t + a1) * t ≤ 0.56 := by
  unfold a1 a2 a3 a4 a5
  have ht0 : (0 : ℝ) < t := by linarith
  have hs1a : (1.061405429 : ℝ) * t + -1.453152027 ≤ -0.57759 := by linarith
  have hs1b : -(0.59045 : ℝ) ≤ 1.061405429 * t + -1.453152027 := by linarith
  have hs2a : ((1.061405429 : ℝ) * t + -1.453152027) * t ≤ -0.46946 := by
    nlinarith
  have hs2b : -(0.48707 : ℝ) ≤ ((1.061405429 : ℝ) * t + -1.453152027) * t := by
    nlinarith
  have hs4a : (((1.061405429 : ℝ) * t + -1.453152027) * t + 1.421413741) * t
      ≤ 0.78528 := by nlinarith
  have hs4b : (0.75943 : ℝ) ≤
      (((1.061405429 : ℝ) * t + -1.453152027) * t + 1.421413741) * t := by
    nlinarith
  have hs6a : ((((1.061405429 : ℝ) * t + -1.453152027) * t + 1.421413741) * t
      + -0.284496736) * t ≤ 0.41310 := by nlinarith
  have hs6b : (0.38602 : ℝ) ≤
      ((((1.061405429 : ℝ) * t + -1.453152027) * t + 1.421413741) * t
      + -0.284496736) * t := by nlinarith
  constructor
  · nlinarith
  · nlinarith

/-- For a transformed argument `u ∈ [0.648, 0.703]` (the range reached by
the scenario's `d1/√2`), the quantity `1 - y(u)` — which is what
`norm_cdf` of the corresponding negative argument doubles — lies in
`[0.3, 0.7]`. -/
theorem scenario_cdf_band (u : ℝ) (h1 : (0.648 : ℝ) ≤ u)
    (h2 : u ≤ (0.703 : ℝ)) :
    (0.3 : ℝ) ≤ 1 - cdf_y u ∧ 1 - cdf_y u ≤ 0.7 := by
  have hpu1 : (1.2122790328 : ℝ) ≤ 1 + p * u := by unfold p; linarith
  have hpu2 : 1 + p * u ≤ (1.2302965433 : ℝ) := by unfold p; linarith
  have hpos : (0 : ℝ) < 1 + p * u := by linarith
  have ht1 : (0.8128 : ℝ) ≤ 1 / (1 + p * u) := by
    rw [le_div_iff hpos]; nlinarith
  have ht2 : 1 / (1 + p * u) ≤ (0.8249 : ℝ) := by
    rw [div_le_iff hpos]; nlinarith
  have hP := as_poly_scenario (1 / (1 + p * u)) ht1 ht2
  have hE2 : Real.exp (-u * u) ≤ 1 := by
    calc Real.exp (-u * u) ≤ Real.exp 0 := Real.exp_le_exp.mpr (by nlinarith)
    _ = 1 := Real.exp_zero
  have hE1 : (0.59 : ℝ) ≤ Real.exp (-u * u) := by
    have hx2 : u * u ≤ 0.494209 := by nlinarith
    have hq : (0.87644775 : ℝ) ≤ Real.exp (-(u * u) / 4) := by
      have h := Real.add_one_le_exp (-(u * u) / 4)
      linarith
    have hsplit : Real.exp (-u * u) = Real.exp (-(u * u) / 4) ^ 4 := by
      rw [← Real.exp_nat_mul]
      congr 1
      push_cast
      ring
    rw [hsplit]
    calc (0.59 : ℝ) ≤ 0.87644775 ^ 4 := by norm_num
    _ ≤ Real.exp (-(u * u) / 4) ^ 4 := pow_le_pow_left (by norm_num) hq 4
  have hE0 : (0 : ℝ) < Real.exp (-u * u) := Real.exp_pos _
  simp only [cdf_y]
  constructor
  · nlinarith [hP.1, hP.2, hE1, hE2]
  · nlinarith [hP.1, hP.2, hE1, hE2]

/-- The scenario's absolute delta lies inside the default band: with
spot 120, strike 110, `T = 6/73` and volatility 0.35, the put delta set
by the pricer satisfies `0.15 ≤ |delta| ≤ 0.35`. -/
theorem scenario_abs_delta_band :
    (0.15 : ℝ) ≤
      |(bs_put_greeks 120 110 ((6 : ℝ) / 73) RISK_FREE_RATE (7 / 20)).delta| ∧
    |(bs_put_greeks 120 110 ((6 : ℝ) / 73) RISK_FREE_RATE (7 / 20)).delta|
      ≤ 0.35 := by
  have hguard : ¬(((6 : ℝ) / 73) ≤ 0 ∨ ((7 : ℝ) / 20) ≤ 0) := by norm_num
  rw [bs_put_greeks_delta _ _ _ _ _ hguard]
  have hb := scenario_d1_bounds
  have hd1pos : (0 : ℝ) < (bs_d1_d2 120 110 ((6 : ℝ) / 73) RISK_FREE_RATE
      (7 / 20)).1 := by linarith [hb.1]
  have hneg : -(bs_d1_d2 120 110 ((6 : ℝ) / 73) RISK_FREE_RATE (7 / 20)).1
      < 0 := by linarith
  rw [abs_neg, abs_of_nonneg (norm_cdf_mem _).1, norm_cdf_of_neg _ hneg,
    abs_neg, abs_of_pos hd1pos]
  have hs2 := sqrt_two_bounds
  have hs2pos : (0 : ℝ) < Real.sqrt 2 := by linarith [hs2.1]
  have hu1 : (0.648 : ℝ) ≤ (bs_d1_d2 120 110 ((6 : ℝ) / 73) RISK_FREE_RATE
      (7 / 20)).1 / Real.sqrt 2 := by
    rw [le_div_iff hs2pos]; nlinarith [hb.1, hs2.2]
  have hu2 : (bs_d1_d2 120 110 ((6 : ℝ) / 73) RISK_FREE_RATE (7 / 20)).1
      / Real.sqrt 2 ≤ 0.703 := by
    rw [div_le_iff hs2pos]; nlinarith [hb.2, hs2.1]
  have hcdf := scenario_cdf_band _ hu1 hu2
  constructor
  · linarith [hcdf.1]
  · linarith [hcdf.2]

/-- C6: in the end-to-end scenario — spot 120, put with strike 110,
bid 2.40, ask 2.60, implied vol 0.35, 30 DTE, default configuration —
the 30-day expiration passes the DTE pre-filter, the contract survives
every per-contract filter stage, and the produced candidate carries
`mid = 2.50`, `capital = 11000`, `premium = 250` and
`monthlyReturn = (2.50/110)·(30/30)·100`. -/
theorem C6_scenario_survives :
    dte_eligible default_args 30 ∧
    ∃ res, process_put symW 120 50 sampleExp 30 default_args scenario_put
        = some res ∧
      res.mid = 2.50 ∧ res.capital = 11000 ∧ res.premium = 250 ∧
      res.monthly_return = 2.50 / 110 * (30 / 30) * 100 := by
  have hband := scenario_abs_delta_band
  refine ⟨by norm_num [dte_eligible, default_args], ?_⟩
  norm_num [process_put, scenario_put, default_args]
  exact ⟨_, ⟨⟨by linarith [hband.1], by linarith [hband.2]⟩, rfl⟩,
    rfl, rfl, rfl, rfl⟩

end Claims

end CspScreener
